import Mathlib

/-!
Verification of the edge request-classification and origin-fulfillment
pipeline of the `spa-meta` repository.

The repository ships two CDK stacks:
  * `StaticSite` in `src/dynamic-rendering/infra/lib/dynamic-rendering-stack.ts`
    (viewer-request classifier lambda + origin-request lambda + a cache policy
    that allow-lists the `x-need-dynamic-render` header and enables gzip/brotli
    accept-encoding in the cache key);
  * `GlobalStack` in `src/unnamed/part_000` (origin-request lambda only, with
    the root index document embedded at bundle time through the
    `__SITE_ROOT_INDEX_HTML_CONTENT` compile-time define, and a custom error
    response that rewrites origin 403 responses to `/error.html`).

The lambda handler sources (`../lambda/viewer-request/index.ts` and
`../lambda/origin-request/index.ts`) are referenced by both stacks but are not
part of the available sources; the definitions that stand for them are
modelled from the specification and marked as such in their doc comments.
Configuration values (cache policy, allowed methods, error responses, the
bundling define) are embedded directly from the stack sources.
-/

/-- `matchesAt pat s` is `true` iff the code sequence `pat` is an initial
run of `s`. -/
def matchesAt : List Nat → List Nat → Bool
  | [], _ => true
  | _ :: _, [] => false
  | p :: ps, c :: cs => p == c && matchesAt ps cs

/-- `containsSub s pat` is `true` iff the code sequence `pat` occurs
contiguously somewhere inside `s`. -/
def containsSub : List Nat → List Nat → Bool
  | [], pat => matchesAt pat []
  | c :: rest, pat => matchesAt pat (c :: rest) || containsSub rest pat

/-- ASCII lower-casing of a single character code. -/
def lowerCode (n : Nat) : Nat :=
  if 65 ≤ n && n ≤ 90 then n + 32 else n

/-- A string as its list of character codes. -/
def codes (s : String) : List Nat := s.toList.map Char.toNat

/-- Case-insensitive substring test on strings, used for user-agent
signature matching. -/
def strContainsCI (s pat : String) : Bool :=
  containsSub ((codes s).map lowerCode) ((codes pat).map lowerCode)

/-- HTTP header list: header names paired with values.  CloudFront hands
headers to edge lambdas with lower-cased names, so lookups here use exact
names in lower case. -/
def Headers := List (String × String)

/-- Look up the first value of a header by name. -/
def getHeader (hs : Headers) (name : String) : Option String :=
  match hs with
  | [] => none
  | (n, v) :: rest => if n = name then some v else getHeader rest name

/-- Overwrite a header: any client-supplied occurrences of `name` are
removed and the computed value is installed in their place. -/
def setHeader (hs : Headers) (name v : String) : Headers :=
  (name, v) :: hs.filter (fun p => p.1 ≠ name)

/-- The reserved rendering-signal header name from the cache policy in
`dynamic-rendering-stack.ts` (`CacheHeaderBehavior.allowList("x-need-dynamic-render")`). -/
def signalHeaderName : String := "x-need-dynamic-render"

/-- The client-identification header inspected by the classifier. -/
def userAgentHeaderName : String := "user-agent"

/-- Modelled from the spec: the viewer-request lambda
(`../lambda/viewer-request/index.ts`, referenced by the `StaticSite` stack but
absent from the available sources) classifies a request as needing dynamic
rendering by case-insensitive substring matching of the client-identification
header against an allow-list of automated-client signatures; an absent header
or no match yields `false`. -/
def classify (signatures : List String) (userAgent : Option String) : Bool :=
  match userAgent with
  | none => false
  | some ua => signatures.any (fun sig => strContainsCI ua sig)

/-- A request as seen by the edge pipeline. -/
structure Request where
  path : String
  headers : Headers

/-- Modelled from the spec: the classifier stage
(`../lambda/viewer-request/index.ts`, absent from the available sources)
computes `needsDynamicRendering` from the client-identification header and
installs it on the request under the reserved signal header name, overwriting
any client-supplied header of that name, before the cache key is computed. -/
def classifierStage (signatures : List String) (r : Request) : Request :=
  { r with
    headers := setHeader r.headers signalHeaderName
      (if classify signatures (getHeader r.headers userAgentHeaderName)
       then "true" else "false") }

/-- Negotiated content encoding of a response, as normalized by CloudFront
when `enableAcceptEncodingGzip`/`Brotli` are set on the cache policy. -/
inductive NegotiatedEncoding where
  | br
  | gzip
  | identity
deriving DecidableEq

/-- Cache policy configuration, as set on the `CachePolicy` construct. -/
structure CachePolicyCfg where
  enableAcceptEncodingBrotli : Bool
  enableAcceptEncodingGzip : Bool
  headerAllowList : List String

/-- The cache policy instantiated in `dynamic-rendering-stack.ts`
(lines 120–127): brotli and gzip accept-encoding enabled, header behavior
allow-listing exactly `x-need-dynamic-render`. -/
def siteCachePolicy : CachePolicyCfg :=
  { enableAcceptEncodingBrotli := true
    enableAcceptEncodingGzip := true
    headerAllowList := [signalHeaderName] }

/-- A cache key: the normalized path, the values of the allow-listed headers
(in allow-list order), and the negotiated content encoding. -/
structure CacheKey where
  path : String
  headerValues : List (Option String)
  encoding : NegotiatedEncoding
deriving DecidableEq

/-- The cache key CloudFront computes under a cache policy: the request path,
the values of the policy's allow-listed headers, and (because accept-encoding
caching is enabled) the negotiated content encoding. -/
def cacheKeyOf (pol : CachePolicyCfg) (path : String) (hs : Headers)
    (enc : NegotiatedEncoding) : CacheKey :=
  { path := path
    headerValues := pol.headerAllowList.map (fun n => getHeader hs n)
    encoding := enc }

/-- The external cache layer: a partial map from cache keys to cached bodies. -/
def Cache := CacheKey → Option String

/-- Store a response body in the cache under a key. -/
def cacheStore (c : Cache) (k : CacheKey) (body : String) : Cache :=
  fun k2 => if k2 = k then some body else c k2

/-- Serve a request from the cache: exact key match only. -/
def cacheServe (c : Cache) (pol : CachePolicyCfg) (path : String)
    (hs : Headers) (enc : NegotiatedEncoding) : Option String :=
  c (cacheKeyOf pol path hs enc)

/-- A stored object: body bytes and content type. -/
structure StoredObject where
  body : String
  contentType : String
deriving DecidableEq

/-- The object store (S3 bucket): a partial map from object paths to objects. -/
def Store := String → Option StoredObject

/-- Accumulate the final `/`-separated segment of a code sequence
(47 is the code of the slash). -/
def lastSegAux (acc : List Nat) : List Nat → List Nat
  | [] => acc
  | c :: rest => if c == 47 then lastSegAux [] rest else lastSegAux (acc ++ [c]) rest

/-- The last `/`-separated segment of a path, as character codes. -/
def lastSegment (p : String) : List Nat :=
  lastSegAux [] (codes p)

/-- A path looks like a static-asset request iff its last segment bears a
file extension (contains a dot, code 46). -/
def hasFileExt (p : String) : Bool :=
  (lastSegment p).any (fun c => c == 46)

/-- Result of origin resolution. -/
inductive ResolveResult where
  | ok (status : Nat) (body : String) (contentType : String)
  | notFound
  | upstreamError
deriving DecidableEq

/-- Modelled from the spec: the origin-request lambda
(`../lambda/origin-request/index.ts`, referenced by both stacks but absent
from the available sources) resolves `(path, needsDynamicRendering)` against
the store in the ordered fallback sequence of §4.3: rendering-specific object
(when signalled) → literal static asset → root index document (success
status, only when the last path segment bears no file extension) → not-found.
`derive` is the deterministic rendering-specific path derivation, an
implementation choice left abstract here; `indexBody` is the root index
document. -/
def resolve (derive : String → String) (indexBody : String) (store : Store)
    (path : String) (needsDynamicRendering : Bool) : ResolveResult :=
  match (if needsDynamicRendering then store (derive path) else none) with
  | some obj => .ok 200 obj.body obj.contentType
  | none =>
    match store path with
    | some obj => .ok 200 obj.body obj.contentType
    | none =>
      if hasFileExt path then .notFound
      else .ok 200 indexBody "text/html"

/-- Modelled from the spec: the origin resolver applied to a whole request —
it reads only the request path and the rendering-signal header installed by
the classifier (signal `true` iff the header value is `"true"`). -/
def resolveRequest (derive : String → String) (indexBody : String)
    (store : Store) (r : Request) : ResolveResult :=
  resolve derive indexBody store r.path
    (getHeader r.headers signalHeaderName == some "true")

/-- Outcome of a single store lookup attempt, including transient failure
(timeout, connectivity). -/
inductive LookupResult where
  | found (obj : StoredObject)
  | missing
  | transientFailure
deriving DecidableEq

/-- A store whose lookups can fail transiently: the outcome of looking up a
path depends on the attempt index (0 = first try, 1 = retry). -/
def FlakyStore := Nat → String → LookupResult

/-- Modelled from the spec: a store lookup that errors transiently is retried
exactly once; the retry's outcome is final, and a second transient failure is
surfaced.  Returns the final outcome together with the number of lookup
attempts performed for this path. -/
def lookupWithRetry (s : FlakyStore) (p : String) : LookupResult × Nat :=
  match s 0 p with
  | .transientFailure =>
    match s 1 p with
    | .transientFailure => (.transientFailure, 2)
    | r => (r, 2)
  | r => (r, 1)

/-- Modelled from the spec: the origin resolver over a store with transient
failures — each lookup goes through the single-retry policy, and a lookup
still failing after its retry surfaces an upstream fulfillment failure
instead of falling back to the index document. -/
def resolveF (derive : String → String) (indexBody : String) (s : FlakyStore)
    (path : String) (needsDynamicRendering : Bool) : ResolveResult :=
  match (if needsDynamicRendering then (lookupWithRetry s (derive path)).1
         else .missing) with
  | .found obj => .ok 200 obj.body obj.contentType
  | .transientFailure => .upstreamError
  | .missing =>
    match (lookupWithRetry s path).1 with
    | .found obj => .ok 200 obj.body obj.contentType
    | .transientFailure => .upstreamError
    | .missing =>
      if hasFileExt path then .notFound
      else .ok 200 indexBody "text/html"

/-- HTTP request methods relevant to the distribution behaviors. -/
inductive HttpMethod where
  | GET
  | HEAD
  | OPTIONS
  | POST
  | PUT
  | PATCH
  | DELETE
deriving DecidableEq

/-- The CDK constant `AllowedMethods.ALLOW_GET_HEAD_OPTIONS` used by both
stacks (`allowedMethods` in `dynamic-rendering-stack.ts` line 119 and
`part_000` line 87): the distribution accepts exactly GET, HEAD and OPTIONS. -/
def ALLOW_GET_HEAD_OPTIONS : List HttpMethod :=
  [.GET, .HEAD, .OPTIONS]

/-- The CDK default `CachedMethods.CACHE_GET_HEAD`: neither stack sets
`cachedMethods` on its behavior, so CloudFront caches responses only to GET
and HEAD requests. -/
def CACHE_GET_HEAD : List HttpMethod :=
  [.GET, .HEAD]

/-- How the front door handles a request method. -/
inductive MethodOutcome where
  | servedViaCache
  | forwardedUncached
  | rejected
deriving DecidableEq

/-- CloudFront's documented handling of request methods under a behavior's
`allowedMethods` and `cachedMethods` configuration: a method in the
allow-list proceeds (served through the cache when it is one of the cached
methods, otherwise forwarded to the origin uncached); a method outside the
allow-list is rejected by the distribution and never reaches the cache or
the origin. -/
def dispatchMethod (allowed cached : List HttpMethod) (m : HttpMethod) :
    MethodOutcome :=
  if m ∈ allowed then
    if m ∈ cached then .servedViaCache else .forwardedUncached
  else .rejected

/-- The compile-time defines injected into the origin-request bundle. -/
structure BundleDefine where
  siteRootIndexHtmlContent : String
deriving DecidableEq

/-- The `bundling.define` of the `GlobalStack` origin-request function
(`part_000` lines 58–64): `__SITE_ROOT_INDEX_HTML_CONTENT` is bound to the
content of `front-app/dist/index.html` read at build time, freezing the
fallback body into the deployed bundle. -/
def buildOriginRequestBundle (distIndexHtml : String) : BundleDefine :=
  { siteRootIndexHtmlContent := distIndexHtml }

/-- Modelled from the spec: the `GlobalStack` origin resolver serves the SPA
fallback from the bundle's embedded `__SITE_ROOT_INDEX_HTML_CONTENT`
constant, not from a store lookup (the handler source is absent from the
available sources; the embedding mechanism is the stack's `bundling.define`). -/
def resolveGlobal (derive : String → String) (bundle : BundleDefine)
    (store : Store) (path : String) (needsDynamicRendering : Bool) :
    ResolveResult :=
  resolve derive bundle.siteRootIndexHtmlContent store path needsDynamicRendering

/-- One custom error response of a CloudFront distribution. -/
structure ErrorResponseCfg where
  httpStatus : Nat
  responseHttpStatus : Nat
  responsePagePath : String
  ttlSeconds : Nat
deriving DecidableEq

/-- The `errorResponses` of the `GlobalStack` distribution (`part_000`
lines 74–81): origin status 403 → respond 403 with `/error.html`, cached for
`Duration.minutes(30)` = 1800 seconds. -/
def globalErrorResponses : List ErrorResponseCfg :=
  [{ httpStatus := 403
     responseHttpStatus := 403
     responsePagePath := "/error.html"
     ttlSeconds := 30 * 60 }]

/-- A response as delivered to the client: status, body, and the freshness
lifetime (seconds) the cache layer applies to it (`none` = policy default). -/
structure ClientResponse where
  status : Nat
  body : String
  ttlSeconds : Option Nat
deriving DecidableEq

/-- CloudFront's documented custom-error-response handling: when the origin
response status matches a configured `httpStatus`, the client receives the
configured `responseHttpStatus` with the body of the object at
`responsePagePath`, cached for the configured ttl; otherwise the origin
response passes through unchanged. -/
def applyErrorResponses (cfgs : List ErrorResponseCfg) (store : Store)
    (status : Nat) (body : String) : ClientResponse :=
  match cfgs.find? (fun c => c.httpStatus == status) with
  | some c =>
    { status := c.responseHttpStatus
      body := (match store c.responsePagePath with
               | some obj => obj.body
               | none => "")
      ttlSeconds := some c.ttlSeconds }
  | none => { status := status, body := body, ttlSeconds := none }

example : classify ["bot", "crawler"] (some "ExampleBot/2.1") = true := by decide
example : classify ["bot", "crawler"] none = false := by decide
example : classify ["bot"] (some "Mozilla/5.0") = false := by decide
example : hasFileExt "/assets/logo.png" = true := by decide
example : hasFileExt "/products/42" = false := by decide
example : hasFileExt "/" = false := by decide

/-- C1: the cache key under the site's cache policy is exactly (path, value
of the `x-need-dynamic-render` header, negotiated encoding), and storing an
entry for a request is invisible to any request with the same path and
encoding but a different rendering-signal value — neither is ever served the
other's entry. -/
theorem cache_partition_isolation (path : String) (h1 h2 : Headers)
    (enc : NegotiatedEncoding) (c : Cache) (body : String)
    (hne : getHeader h1 signalHeaderName ≠ getHeader h2 signalHeaderName) :
    cacheKeyOf siteCachePolicy path h1 enc =
      { path := path, headerValues := [getHeader h1 signalHeaderName],
        encoding := enc } ∧
    cacheServe (cacheStore c (cacheKeyOf siteCachePolicy path h1 enc) body)
        siteCachePolicy path h2 enc
      = cacheServe c siteCachePolicy path h2 enc := by
  refine ⟨rfl, ?_⟩
  simp only [cacheServe, cacheStore, cacheKeyOf, siteCachePolicy, List.map]
  rw [if_neg]
  intro h
  exact hne (congrArg (fun k => k.headerValues.headD none) h).symm

theorem cache_partition_isolation_witness :
    (getHeader [(signalHeaderName, "true")] signalHeaderName ≠
      getHeader [(signalHeaderName, "false")] signalHeaderName) ∧
    cacheServe
        (cacheStore (fun _ => none)
          (cacheKeyOf siteCachePolicy "/p" [(signalHeaderName, "true")]
            NegotiatedEncoding.gzip) "cached")
        siteCachePolicy "/p" [(signalHeaderName, "false")]
        NegotiatedEncoding.gzip
      = cacheServe (fun _ => none) siteCachePolicy "/p"
          [(signalHeaderName, "false")] NegotiatedEncoding.gzip :=
  ⟨by decide,
   (cache_partition_isolation "/p" [(signalHeaderName, "true")]
      [(signalHeaderName, "false")] NegotiatedEncoding.gzip
      (fun _ => none) "cached" (by decide)).2⟩

/-- C2: for every path whose last segment bears no file extension and which
matches no stored object (neither literally nor through the rendering-path
derivation), resolution returns the root index document with HTTP status
200 — a success, not a redirect and not an error — for both values of
`needsDynamicRendering`. -/
theorem fallback_law (derive : String → String) (indexBody : String)
    (store : Store) (path : String) (b : Bool)
    (hext : hasFileExt path = false)
    (hlit : store path = none)
    (hder : store (derive path) = none) :
    resolve derive indexBody store path b
      = ResolveResult.ok 200 indexBody "text/html" := by
  cases b <;> simp [resolve, hext, hlit, hder]

theorem fallback_law_witness :
    (hasFileExt "/products/42" = false ∧
      resolve (fun p => "/rendered" ++ p) "idx" (fun _ => none)
        "/products/42" false = ResolveResult.ok 200 "idx" "text/html") ∧
    resolve (fun p => "/rendered" ++ p) "idx" (fun _ => none)
        "/products/42" true = ResolveResult.ok 200 "idx" "text/html" :=
  ⟨⟨by decide,
    fallback_law (fun p => "/rendered" ++ p) "idx" (fun _ => none)
      "/products/42" false (by decide) rfl rfl⟩,
   fallback_law (fun p => "/rendered" ++ p) "idx" (fun _ => none)
      "/products/42" true (by decide) rfl rfl⟩

/-- C3: for every path whose last segment bears a file extension and which
matches no stored object, resolution reports a not-found failure and in
particular never returns the index document. -/
theorem negative_law (derive : String → String) (indexBody : String)
    (store : Store) (path : String) (b : Bool)
    (hext : hasFileExt path = true)
    (hlit : store path = none)
    (hder : store (derive path) = none) :
    resolve derive indexBody store path b = ResolveResult.notFound ∧
    resolve derive indexBody store path b
      ≠ ResolveResult.ok 200 indexBody "text/html" := by
  cases b <;> simp [resolve, hext, hlit, hder]

theorem negative_law_witness :
    hasFileExt "/assets/logo.png" = true ∧
    (resolve (fun p => "/rendered" ++ p) "idx" (fun _ => none)
        "/assets/logo.png" true = ResolveResult.notFound ∧
      resolve (fun p => "/rendered" ++ p) "idx" (fun _ => none)
        "/assets/logo.png" true ≠ ResolveResult.ok 200 "idx" "text/html") :=
  ⟨by decide,
   negative_law (fun p => "/rendered" ++ p) "idx" (fun _ => none)
     "/assets/logo.png" true (by decide) rfl rfl⟩

/-- C4: the classifier yields `true` exactly when the client-identification
header is present and matches (case-insensitive substring) some signature of
the allow-list; an absent header, or any header value matching no signature,
yields `false`.  Totality (it never fails) holds by construction: `classify`
is a total function. -/
theorem classifier_policy (signatures : List String) (ua : Option String) :
    classify signatures ua = true ↔
      ∃ h, ua = some h ∧
        ∃ sig ∈ signatures, strContainsCI h sig = true := by
  cases ua with
  | none => simp [classify]
  | some a => simp [classify, List.any_eq_true]

/-- C5: after the classifier stage runs, the rendering-signal header observed
downstream (by the cache-key computation and the origin resolver) is exactly
the value the classifier computed from the client-identification header —
any client-supplied header with the reserved name has been overwritten, so
for every incoming request, whatever `x-need-dynamic-render` value the
client sent, the observed signal is the classifier's. -/
theorem signal_unforgeable (signatures : List String) (r : Request) :
    getHeader (classifierStage signatures r).headers signalHeaderName
      = some (if classify signatures (getHeader r.headers userAgentHeaderName)
              then "true" else "false") ∧
    (classifierStage signatures r).headers.filter
        (fun p => p.1 = signalHeaderName)
      = [(signalHeaderName,
          if classify signatures (getHeader r.headers userAgentHeaderName)
          then "true" else "false")] := by
  constructor
  · simp [classifierStage, setHeader, getHeader]
  · simp only [classifierStage, setHeader, List.filter]
    simp [List.filter_filter]

/-- C6 (amended): under the deployed configuration
(`allowedMethods = ALLOW_GET_HEAD_OPTIONS`, `cachedMethods` left at the CDK
default `CACHE_GET_HEAD`), GET and HEAD requests are served through the
cache, OPTIONS requests are accepted but forwarded to the origin uncached,
and every other method is rejected by the distribution — it never reaches
the cache layer or the Origin Resolver. -/
theorem method_handling_amended (m : HttpMethod) :
    dispatchMethod ALLOW_GET_HEAD_OPTIONS CACHE_GET_HEAD m
      = (if m ∈ CACHE_GET_HEAD then MethodOutcome.servedViaCache
         else if m ∈ ALLOW_GET_HEAD_OPTIONS then MethodOutcome.forwardedUncached
         else MethodOutcome.rejected) := by
  cases m <;> rfl

/-- C6 counterexample: a POST request is rejected by the distribution (the
configured allow-list is GET/HEAD/OPTIONS only); it does not bypass the
cache into the Origin Resolver as the claim states. -/
theorem method_bypass_counterexample :
    dispatchMethod ALLOW_GET_HEAD_OPTIONS CACHE_GET_HEAD HttpMethod.POST
        = MethodOutcome.rejected ∧
    dispatchMethod ALLOW_GET_HEAD_OPTIONS CACHE_GET_HEAD HttpMethod.POST
        ≠ MethodOutcome.forwardedUncached := by
  decide

/-- C7: origin resolution is a pure function of the request path, the
rendering signal and the store: two requests agreeing on path and signal
header resolve identically against the same store (in particular, resolving
the same request twice against an unchanged store yields identical results). -/
theorem resolution_deterministic (derive : String → String)
    (indexBody : String) (store : Store) (r1 r2 : Request)
    (hp : r1.path = r2.path)
    (hs : getHeader r1.headers signalHeaderName
          = getHeader r2.headers signalHeaderName) :
    resolveRequest derive indexBody store r1
      = resolveRequest derive indexBody store r2 := by
  simp only [resolveRequest, hp, hs]

theorem resolution_deterministic_witness :
    resolveRequest (fun p => "/rendered" ++ p) "idx" (fun _ => none)
        { path := "/products/42",
          headers := [("user-agent", "ExampleBot/2.1"),
                      (signalHeaderName, "true")] }
      = resolveRequest (fun p => "/rendered" ++ p) "idx" (fun _ => none)
          { path := "/products/42",
            headers := [(signalHeaderName, "true"),
                        ("user-agent", "Mozilla/5.0")] } :=
  resolution_deterministic (fun p => "/rendered" ++ p) "idx" (fun _ => none)
    { path := "/products/42",
      headers := [("user-agent", "ExampleBot/2.1"), (signalHeaderName, "true")] }
    { path := "/products/42",
      headers := [(signalHeaderName, "true"), ("user-agent", "Mozilla/5.0")] }
    rfl (by decide)

/-- C8: when the first lookup of a path fails transiently, exactly one retry
is performed (two attempts total); if the retry finds the object the final
result is that object's success response, and if the retry also fails
transiently the resolver surfaces an upstream fulfillment failure — not a
not-found and not the index fallback. -/
theorem single_retry_law (derive : String → String) (indexBody : String)
    (s : FlakyStore) (path : String)
    (h0 : s 0 path = LookupResult.transientFailure) :
    (∀ obj, s 1 path = LookupResult.found obj →
      resolveF derive indexBody s path false
          = ResolveResult.ok 200 obj.body obj.contentType ∧
      (lookupWithRetry s path).2 = 2) ∧
    (s 1 path = LookupResult.transientFailure →
      resolveF derive indexBody s path false = ResolveResult.upstreamError ∧
      resolveF derive indexBody s path false
        ≠ ResolveResult.ok 200 indexBody "text/html" ∧
      (lookupWithRetry s path).2 = 2) := by
  constructor
  · intro obj h1
    simp [resolveF, lookupWithRetry, h0, h1]
  · intro h1
    simp [resolveF, lookupWithRetry, h0, h1]

theorem single_retry_law_witness :
    (fun att (_ : String) =>
        if att = 0 then LookupResult.transientFailure
        else LookupResult.found ⟨"payload", "text/plain"⟩ : FlakyStore)
        0 "/a" = LookupResult.transientFailure ∧
    (resolveF (fun p => "/rendered" ++ p) "idx"
        (fun att _ =>
          if att = 0 then LookupResult.transientFailure
          else LookupResult.found ⟨"payload", "text/plain"⟩)
        "/a" false = ResolveResult.ok 200 "payload" "text/plain" ∧
      (lookupWithRetry
        (fun att _ =>
          if att = 0 then LookupResult.transientFailure
          else LookupResult.found ⟨"payload", "text/plain"⟩) "/a").2 = 2) :=
  ⟨rfl,
   (single_retry_law (fun p => "/rendered" ++ p) "idx"
      (fun att _ =>
        if att = 0 then LookupResult.transientFailure
        else LookupResult.found ⟨"payload", "text/plain"⟩)
      "/a" rfl).1 ⟨"payload", "text/plain"⟩ rfl⟩

/-- C9: the SPA fallback body of the `GlobalStack` origin resolver is the
`front-app/dist/index.html` content captured into the bundle's
`__SITE_ROOT_INDEX_HTML_CONTENT` define at build time: for every store
(whatever its `/index.html` or any other object currently holds), whenever
the fallback branch applies, the response body is the build-time snapshot —
so later changes to stored objects cannot change the fallback body without a
rebuild. -/
theorem build_time_index_snapshot (derive : String → String)
    (distIndexHtml : String) (store : Store) (path : String) (b : Bool)
    (hext : hasFileExt path = false)
    (hlit : store path = none)
    (hder : store (derive path) = none) :
    resolveGlobal derive (buildOriginRequestBundle distIndexHtml) store path b
      = ResolveResult.ok 200 distIndexHtml "text/html" := by
  cases b <;> simp [resolveGlobal, buildOriginRequestBundle, resolve,
    hext, hlit, hder]

theorem build_time_index_snapshot_witness :
    hasFileExt "/spa/route" = false ∧
    resolveGlobal (fun p => "/rendered" ++ p)
        (buildOriginRequestBundle "snapshot-at-build")
        (fun p => if p = "/index.html"
                  then some ⟨"changed-later", "text/html"⟩ else none)
        "/spa/route" false
      = ResolveResult.ok 200 "snapshot-at-build" "text/html" :=
  ⟨by decide,
   build_time_index_snapshot (fun p => "/rendered" ++ p) "snapshot-at-build"
     (fun p => if p = "/index.html"
               then some ⟨"changed-later", "text/html"⟩ else none)
     "/spa/route" false (by decide) (by decide) (by decide)⟩

/-- C10: under the `GlobalStack` error-response configuration, every origin
response with status 403 reaches the client rewritten: the client receives
status 403 with the body of the stored `/error.html` object, and that error
response carries a 30-minute (1800-second) cache lifetime. -/
theorem global_403_rewrite (store : Store) (body errBody ct : String)
    (herr : store "/error.html" = some ⟨errBody, ct⟩) :
    applyErrorResponses globalErrorResponses store 403 body
      = { status := 403, body := errBody, ttlSeconds := some 1800 } := by
  simp [applyErrorResponses, globalErrorResponses, herr]

theorem global_403_rewrite_witness :
    (fun p => if p = "/error.html"
              then some (⟨"error-page", "text/html"⟩ : StoredObject)
              else none : Store) "/error.html"
        = some ⟨"error-page", "text/html"⟩ ∧
    applyErrorResponses globalErrorResponses
        (fun p => if p = "/error.html"
                  then some ⟨"error-page", "text/html"⟩ else none)
        403 "origin-said-forbidden"
      = { status := 403, body := "error-page", ttlSeconds := some 1800 } :=
  ⟨by decide,
   global_403_rewrite
     (fun p => if p = "/error.html"
               then some ⟨"error-page", "text/html"⟩ else none)
     "origin-said-forbidden" "error-page" "text/html" (by decide)⟩
